import Mathlib

/-!
Verification of the client-side data synchronization and cache layer of the
incapadmin dashboard (`DashboardAPI` in the frontend sources, together with the
`ServerEventsCarousel` fetch guard).

The JavaScript service is embedded shallowly: network results are oracle inputs
(`NetOutcome`), `localStorage` is a read-only record of the two credential
slots, the mutable `this.token` field is threaded explicitly, and `window`
custom events dispatched by the service are collected in a list.  Functions are
translated clause by clause from `DashboardAPI.fetchWithAuth`,
`DashboardAPI.getDashboardData`, `DashboardAPI._backgroundRefresh` and
`DashboardAPI._fetchServerEvents`.  The cache service (`cache.js`) itself is not
among the repository sources; the answers it gives its callers
(`isCacheValid`, `getDashboardData`, `shouldTriggerBackgroundRefresh`) are
therefore oracle parameters, and the two operations of it that claims are about
(`hasDataChanged`, the monotone `set`) are modelled from the spec, as marked.
-/

namespace Incap

/-- Window events dispatched by the layer.  `networkError` is the
`network:error` custom event, `dashboardRefreshed` is `dashboard:refreshed`,
`serverEventsRefreshed` is `server-events:refreshed`.  `authExpired` stands for
the `auth:expired` topic of the spec; it is included so that statements can say
that the code never publishes it. -/
inductive Event where
  | networkError
  | dashboardRefreshed
  | serverEventsRefreshed
  | authExpired
deriving DecidableEq, Repr

/-- Backend response body of `GET /admin/server-events`. -/
structure EventsResp where
  success : Bool
  events : List Nat
  count : Nat
deriving DecidableEq, Repr

/-- The value stored under the `server_events` key of the dashboard payload.
`_fetchServerEvents` builds it as the object literal `{events, count}`, so the
`success` key may be absent; an absent key is `none`. -/
structure EventsData where
  success : Option Bool
  events : List Nat
  count : Nat
deriving DecidableEq, Repr

/-- The dashboard payload (`combinedData` in the code), a JavaScript object.
Semantic fields are kept abstract (identifiers / opaque numbers).  `partFlag`
models a `partial` key of the object, should the backend ever send one: the
client code never writes that key.  `fromCacheDueToError` and `errMsg` model
the `_fromCacheDueToError` and `_error` keys added on the degraded path. -/
structure Payload where
  success : Bool
  user : Option Nat
  investment : Option Int
  transactions : List Nat
  notifications : List Nat
  server_events_update_flag : Option String
  due_dates : Option Nat
  server_events : Option EventsData
  partFlag : Option Bool
  fromCacheDueToError : Bool
  errMsg : Option String
deriving DecidableEq, Repr

/-- The two credential slots of `localStorage` read by `fetchWithAuth`:
`adminToken` and `session_token`. -/
structure Storage where
  adminToken : Option String
  sessionToken : Option String
deriving DecidableEq, Repr

/-- Whether the first character list starts the second. -/
def startsWithChars : List Char → List Char → Bool
  | [], _ => true
  | _ :: _, [] => false
  | p :: ps, c :: cs => p == c && startsWithChars ps cs

/-- Whether the first character list occurs inside the second. -/
def occursInChars (pat : List Char) : List Char → Bool
  | [] => startsWithChars pat []
  | c :: cs => startsWithChars pat (c :: cs) || occursInChars pat cs

/-- `s.includes(pat)`. -/
def strContains (s pat : String) : Bool :=
  occursInChars pat.toList s.toList

/-- `url.includes('/admin/')`, the admin-route test of `fetchWithAuth`. -/
def isAdminRoute (url : String) : Bool :=
  strContains url "/admin/"

/-- The credential-resolution prefix of `fetchWithAuth` (lines 320-350): when
`this.token` is unset, try `adminToken` for admin routes, then
`session_token`, then `adminToken` as a final fallback for any route. -/
def resolveToken (token : Option String) (st : Storage) (url : String) : Option String :=
  match token with
  | some t => some t
  | none =>
    match (if isAdminRoute url then st.adminToken else none) with
    | some t => some t
    | none =>
      match st.sessionToken with
      | some t => some t
      | none => st.adminToken

/-- `this.token = token` (`DashboardAPI.setToken`). -/
def setToken (_token : Option String) (t : String) : Option String :=
  some t

/-- Settled outcome of one `fetch` call, as an oracle input. -/
inductive NetOutcome (α : Type) where
  | ok (body : α)
  | httpError (status : Nat) (detail : Option String)
  | netFail
deriving DecidableEq, Repr

/-- `netOutcome.failed` is true when the call does not settle with an ok
response. -/
def NetOutcome.failed : NetOutcome α → Bool
  | .ok _ => false
  | .httpError _ _ => true
  | .netFail => true

/-- Errors thrown by `fetchWithAuth`. -/
inductive FetchErr where
  | noToken
  | http (status : Nat) (detail : Option String)
  | network
deriving DecidableEq, Repr

/-- `error.message` of the thrown errors: the missing-token message, the
backend `detail` (or the generic status message), or the rewrapped
network-failure message. -/
def errMessage : FetchErr → String
  | .noToken => "No authentication token available"
  | .http s d => d.getD ("HTTP error! status: " ++ toString s)
  | .network => "Network connection failed. Please check your internet connection."

/-- The error a failing `NetOutcome` turns into. -/
def errOf : NetOutcome α → FetchErr
  | .ok _ => FetchErr.network
  | .httpError s d => FetchErr.http s d
  | .netFail => FetchErr.network

/-- Result of one `fetchWithAuth` call: the value of `this.token` afterwards,
whether a request went out and with which bearer token, the window events
dispatched, and the settled value or error. -/
structure FetchResult (α : Type) where
  newToken : Option String
  sent : Bool
  authToken : Option String
  events : List Event
  result : Except FetchErr α
deriving Repr

/-- `DashboardAPI.fetchWithAuth` (lines 320-381).  Resolution failure throws
before any request is made.  A non-ok response throws the backend detail or the
generic status message.  A transport-level failure dispatches `network:error`
and throws the rewrapped message; no event is dispatched for any other
outcome. -/
def fetchWithAuth (token : Option String) (st : Storage) (url : String)
    (net : NetOutcome α) : FetchResult α :=
  match resolveToken token st url with
  | none =>
      { newToken := none, sent := false, authToken := none, events := [],
        result := Except.error FetchErr.noToken }
  | some t =>
      match net with
      | .ok body =>
          { newToken := some t, sent := true, authToken := some t, events := [],
            result := Except.ok body }
      | .httpError s d =>
          { newToken := some t, sent := true, authToken := some t, events := [],
            result := Except.error (FetchErr.http s d) }
      | .netFail =>
          { newToken := some t, sent := true, authToken := some t,
            events := [Event.networkError],
            result := Except.error FetchErr.network }

/-- The check Dashboard.jsx line 206 applies to a propagated error message to
decide whether to open the session-expired modal. -/
def dashSessionExpiredCheck (msg : String) : Bool :=
  strContains msg "401" || strContains msg "Unauthorized"

/-- `DashboardAPI._fetchServerEvents` (lines 618-635).  It never throws: both
the non-success branch and the catch return the literal `{events: [], count: 0}`,
and the success branch returns `{events: ..., count: ...}`.  None of the three
return objects carries a `success` key, hence `success := none` everywhere. -/
def fetchServerEvents (token : Option String) (st : Storage)
    (net : NetOutcome EventsResp) : FetchResult EventsData :=
  let r := fetchWithAuth token st "/admin/server-events?include_inactive=false" net
  let data : EventsData :=
    match r.result with
    | Except.ok resp =>
        if resp.success then
          { success := none, events := resp.events, count := resp.count }
        else
          { success := none, events := [], count := 0 }
    | Except.error _ => { success := none, events := [], count := 0 }
  { newToken := r.newToken, sent := r.sent, authToken := r.authToken,
    events := r.events, result := Except.ok data }

/-- Oracle for the settled outcomes of the four endpoints a refresh can hit. -/
structure NetEnv where
  primary : NetOutcome Payload
  secondary : NetOutcome Nat
  serverEvents : NetOutcome EventsResp
  clearFlag : NetOutcome Unit
deriving DecidableEq, Repr

/-- `if (combinedData.success && dueDatesData) combinedData.due_dates = dueDatesData`
(lines 504-506): merge of the secondary payload, skipped when the secondary
settled to `null`. -/
def mergeDue (p : Payload) (d : Option Nat) : Payload :=
  if p.success && d.isSome then { p with due_dates := d } else p

/-- Observable outcome of one `getDashboardData` call: the returned value or
propagated error, the argument of `saveDashboardData` if called on this path,
the window events dispatched, which background tasks were spawned by the
cached path, how many `/admin/server-events` fetches the synchronous path
issued, and whether the `clear-server-events-flag` POST went out. -/
structure DashOutcome where
  result : Except FetchErr Payload
  cacheSaved : Option Payload
  events : List Event
  bgRefreshSpawned : Bool
  bgEventsRefreshSpawned : Bool
  eventsFetchCount : Nat
  ackPosted : Bool
deriving Repr

/-- Outcome shape of the catch path of `getDashboardData` when no cached data
can be substituted: the error propagates. -/
def errOutcome (e : FetchErr) (evs : List Event) : DashOutcome :=
  { result := Except.error e, cacheSaved := none, events := evs,
    bgRefreshSpawned := false, bgEventsRefreshSpawned := false,
    eventsFetchCount := 0, ackPosted := false }

/-- Tail of the fresh-fetch path (lines 526-539): on `combinedData.success`
the payload is saved to cache and `dashboard:refreshed` is dispatched,
unconditionally; the payload is returned either way. -/
def finishFresh (combined : Payload) (evs : List Event) (fetchCount : Nat)
    (acked : Bool) : DashOutcome :=
  if combined.success then
    { result := Except.ok combined, cacheSaved := some combined,
      events := evs ++ [Event.dashboardRefreshed],
      bgRefreshSpawned := false, bgEventsRefreshSpawned := false,
      eventsFetchCount := fetchCount, ackPosted := acked }
  else
    { result := Except.ok combined, cacheSaved := none, events := evs,
      bgRefreshSpawned := false, bgEventsRefreshSpawned := false,
      eventsFetchCount := fetchCount, ackPosted := acked }

/-- The conditional server-events block of the fresh-fetch path (lines
508-524): returns the possibly updated payload, the events dispatched by the
extra calls, the number of server-events fetches issued, and whether the
clear-flag acknowledgement POST went out. -/
def eventsBlock (combined1 : Payload) (tok : Option String) (st : Storage)
    (sev : NetOutcome EventsResp) (clr : NetOutcome Unit) :
    Payload × List Event × Nat × Bool :=
  if combined1.success ∧ combined1.server_events_update_flag = some "true" then
    match (fetchServerEvents tok st sev).result with
    | Except.ok fresh =>
        if fresh.success = some true then
          ({ combined1 with server_events := some fresh },
            (fetchServerEvents tok st sev).events
              ++ (fetchWithAuth (fetchServerEvents tok st sev).newToken st
                  "/admin/clear-server-events-flag" clr).events, 1, true)
        else (combined1, (fetchServerEvents tok st sev).events, 1, false)
    | Except.error _ => (combined1, (fetchServerEvents tok st sev).events, 1, false)
  else (combined1, [], 0, false)

/-- The fresh-fetch path of `getDashboardData` (lines 496-553).  The two
fanned-out calls run in the same tick, the primary resolving `this.token`
first; the secondary rejection is swallowed (`.catch(err => null)`).  A primary
failure reaches the catch block, which substitutes cached data (tagged with
`_fromCacheDueToError` and `_error`) only when `useCache` holds and the cache
service returns data; otherwise it rethrows.  On primary success the
server-events flag triggers one `_fetchServerEvents` call, whose result is
attached, and the acknowledgement POST issued, only under
`freshEventsData.success` — a key `_fetchServerEvents` never returns. -/
def freshFetch (useCache : Bool) (cached : Option Payload) (token : Option String)
    (st : Storage) (env : NetEnv) : DashOutcome :=
  let prim := fetchWithAuth token st "/dashboard/data" env.primary
  let sec := fetchWithAuth prim.newToken st "/portfolio/due-dates-data" env.secondary
  let fan := prim.events ++ sec.events
  match prim.result with
  | Except.error e =>
      if useCache then
        match cached with
        | some c =>
            { result := Except.ok
                { c with fromCacheDueToError := true, errMsg := some (errMessage e) },
              cacheSaved := none, events := fan,
              bgRefreshSpawned := false, bgEventsRefreshSpawned := false,
              eventsFetchCount := 0, ackPosted := false }
        | none => errOutcome e fan
      else errOutcome e fan
  | Except.ok dashboardData =>
      let combined1 := mergeDue dashboardData sec.result.toOption
      let eb := eventsBlock combined1 sec.newToken st env.serverEvents env.clearFlag
      finishFresh eb.1 (fan ++ eb.2.1) eb.2.2.1 eb.2.2.2

/-- `DashboardAPI.getDashboardData` (lines 476-554).  The cache-service answers
(`isCacheValid()`, the stored payload, `shouldTriggerBackgroundRefresh()`) are
oracle parameters, since `cache.js` is not among the repository sources.  On a
valid cache hit the cached payload is returned as-is, after spawning the
background event refresh when the cached flag is the string `true` and the
background data refresh when the cache service asks for one; neither spawn is
guarded. -/
def getDashboardData (useCache : Bool) (cacheValid : Bool) (cached : Option Payload)
    (shouldBg : Bool) (token : Option String) (st : Storage) (env : NetEnv) :
    DashOutcome :=
  if useCache && cacheValid then
    match cached with
    | some c =>
        { result := Except.ok c, cacheSaved := none, events := [],
          bgRefreshSpawned := shouldBg,
          bgEventsRefreshSpawned := c.server_events_update_flag = some "true",
          eventsFetchCount := 0, ackPosted := false }
    | none => freshFetch useCache cached token st env
  else
    freshFetch useCache cached token st env

/-- Whether the two notification lists hold the same identifiers, order
ignored (spec section 4.3 treats notifications as a set by identifier). -/
def sameNotificationSet (xs ys : List Nat) : Bool :=
  decide (∀ x ∈ xs, x ∈ ys) && decide (∀ y ∈ ys, y ∈ xs)

/-- Modelled from the spec: `cacheService.hasDataChanged` (its file `cache.js`
is not among the repository sources; only the call in `_backgroundRefresh`
is).  Section 4.3: field-level structural equality over the semantic subset
(user, investment balances, transaction identifiers, due-date entries, active
server events, notifications by identifier), excluding the volatile metadata
(`fetchedAt` / `source` / `partial` — here `fromCacheDueToError`, `errMsg`,
`partFlag` and the update flag). -/
def hasDataChanged (a b : Payload) : Bool :=
  if a.user = b.user ∧ a.investment = b.investment
      ∧ a.transactions = b.transactions ∧ a.due_dates = b.due_dates
      ∧ a.server_events = b.server_events
      ∧ sameNotificationSet a.notifications b.notifications = true
  then false else true

/-- Observable outcome of `_backgroundRefresh`: the cache write, if any, and
the window events dispatched. -/
structure BgOutcome where
  cacheSaved : Option Payload
  events : List Event
deriving Repr

/-- The merged payload `_backgroundRefresh` computes, or the primary error it
swallows. -/
def bgCombined (token : Option String) (st : Storage) (env : NetEnv) :
    Except FetchErr Payload :=
  let prim := fetchWithAuth token st "/dashboard/data" env.primary
  let sec := fetchWithAuth prim.newToken st "/portfolio/due-dates-data" env.secondary
  match prim.result with
  | Except.error e => Except.error e
  | Except.ok p => Except.ok (mergeDue p sec.result.toOption)

/-- Window events dispatched by the fan-out of one refresh. -/
def fanEvents (token : Option String) (st : Storage) (env : NetEnv) : List Event :=
  let prim := fetchWithAuth token st "/dashboard/data" env.primary
  let sec := fetchWithAuth prim.newToken st "/portfolio/due-dates-data" env.secondary
  prim.events ++ sec.events

/-- `DashboardAPI._backgroundRefresh` (lines 557-587).  Any failure is only
logged.  On success the cache is written and `dashboard:refreshed` dispatched
only when there was no previous entry or `cacheService.hasDataChanged` reports
a change. -/
def backgroundRefresh (oldData : Option Payload) (token : Option String)
    (st : Storage) (env : NetEnv) : BgOutcome :=
  match bgCombined token st env with
  | Except.error _ => { cacheSaved := none, events := fanEvents token st env }
  | Except.ok combined =>
      if combined.success then
        match oldData with
        | none =>
            { cacheSaved := some combined,
              events := fanEvents token st env ++ [Event.dashboardRefreshed] }
        | some old =>
            if hasDataChanged combined old then
              { cacheSaved := some combined,
                events := fanEvents token st env ++ [Event.dashboardRefreshed] }
            else { cacheSaved := none, events := fanEvents token st env }
      else { cacheSaved := none, events := fanEvents token st env }

/-- A cache entry: the stored snapshot with its fetch timestamp. -/
structure CacheEntry where
  snapshot : Payload
  fetchedAt : Nat
deriving DecidableEq, Repr

/-- Modelled from the spec: `CacheStore.set` of `cache.js` (not among the
repository sources).  Section 4.2: races are resolved last-writer-wins by
timestamp order, and a write with an older `fetchedAt` than the existing entry
must not overwrite it. -/
def cacheSet (store : Option CacheEntry) (e : CacheEntry) : Option CacheEntry :=
  match store with
  | none => some e
  | some old => if e.fetchedAt < old.fetchedAt then some old else some e

/-- The `fetchedAt` of the stored entry, zero when the store is empty. -/
def storedFetchedAt (store : Option CacheEntry) : Nat :=
  match store with
  | none => 0
  | some e => e.fetchedAt

/-- One same-tick caller of `getDashboardData(true)`: whether its synchronous
prefix spawns a `_backgroundRefresh`.  The cached path performs no synchronous
mutation — the spawned refresh suspends at its first `await` before touching
the cache — so every caller in the same tick observes the same cache-service
state. -/
def spawnsBgRefresh (cacheValid : Bool) (cached : Option Payload) (shouldBg : Bool)
    (token : Option String) (st : Storage) (env : NetEnv) : Bool :=
  (getDashboardData true cacheValid cached shouldBg token st env).bgRefreshSpawned

/-- Number of `_backgroundRefresh` invocations spawned by `n` same-tick
callers of `getDashboardData(true)` against an unchanged cache-service
state. -/
def bgRefreshesSpawned (n : Nat) (cacheValid : Bool) (cached : Option Payload)
    (shouldBg : Bool) (token : Option String) (st : Storage) (env : NetEnv) : Nat :=
  match n with
  | 0 => 0
  | Nat.succ m =>
      (if spawnsBgRefresh cacheValid cached shouldBg token st env then 1 else 0)
      + bgRefreshesSpawned m cacheValid cached shouldBg token st env

/-- Re-entrancy guard of `ServerEventsCarousel.fetchEvents` (lines 49-63): the
number of network fetches one call issues, given the `fetchInProgress` flag, a
forced refresh, a non-empty valid cache, and token availability.  A call
arriving while a fetch is in flight returns at once, issuing nothing and not
observing the in-flight result. -/
def fetchEventsIssues (inProgress : Bool) (force : Bool) (cachedNonEmpty : Bool)
    (hasToken : Bool) : Nat :=
  if inProgress then 0
  else if !force && cachedNonEmpty then 0
  else if !hasToken then 0
  else 1

/-- A concrete dashboard payload used by the closed counterexamples. -/
def samplePayload : Payload :=
  { success := true, user := some 1, investment := some 500,
    transactions := [10], notifications := [3],
    server_events_update_flag := none, due_dates := none, server_events := none,
    partFlag := none, fromCacheDueToError := false, errMsg := none }

/-! Theorems settling the claims. -/

/-- Claim C3 (confirmed): with no explicitly injected credential, an admin
route selects the admin-scoped stored credential first, then any route falls
back to the user-session credential, then to the admin credential as a last
resort; when no credential is found anywhere the request fails with the
authentication error and is never sent anonymously. -/
theorem c3_credential_precedence (st : Storage) (url : String)
    (net : NetOutcome Payload) :
    resolveToken none st url
      = (if isAdminRoute url && st.adminToken.isSome then st.adminToken
         else if st.sessionToken.isSome then st.sessionToken
         else st.adminToken)
    ∧ (resolveToken none st url = none →
        (fetchWithAuth none st url net).result = Except.error FetchErr.noToken
        ∧ (fetchWithAuth none st url net).sent = false) := by
  obtain ⟨a, s⟩ := st
  constructor
  · cases h : isAdminRoute url <;> cases a <;> cases s <;> simp [resolveToken, h]
  · intro hn
    simp [fetchWithAuth, hn]

/-- Witness for C3 at a concrete input: empty storage, the request is not
sent and fails with the missing-token error. -/
theorem c3_witness :
    (fetchWithAuth none { adminToken := none, sessionToken := none }
        "/dashboard/data" (NetOutcome.ok samplePayload)).result
      = Except.error FetchErr.noToken
    ∧ (fetchWithAuth none { adminToken := none, sessionToken := none }
        "/dashboard/data" (NetOutcome.ok samplePayload)).sent = false :=
  (c3_credential_precedence { adminToken := none, sessionToken := none }
      "/dashboard/data" (NetOutcome.ok samplePayload)).2 rfl

/-- Claim C9 (corrected), counterexample: a refresh receiving HTTP 401
propagates the failure but publishes nothing — in particular no `auth:expired`
event — at the concrete input below. -/
theorem c9_counterexample :
    (fetchWithAuth (some "tok") { adminToken := none, sessionToken := none }
        "/dashboard/data" (NetOutcome.httpError 401 none : NetOutcome Payload)).result
      = Except.error (FetchErr.http 401 none)
    ∧ Event.authExpired ∉
      (fetchWithAuth (some "tok") { adminToken := none, sessionToken := none }
        "/dashboard/data" (NetOutcome.httpError 401 none : NetOutcome Payload)).events := by
  exact ⟨rfl, by simp [fetchWithAuth, resolveToken]⟩

/-- Claim C9 (corrected), amended: a 401 response is not special-cased by the
fetch layer — `fetchWithAuth` dispatches no event on any HTTP-status failure
and throws the backend detail or the generic status message, which propagates
through the normal error channel; session-expiry detection is done by the UI
consumer (Dashboard.jsx), which string-matches `401` / `Unauthorized` on the
propagated message. -/
theorem c9_amended_unauthorized (t : String) (st : Storage) (url : String)
    (s : Nat) (d : Option String) :
    (fetchWithAuth (some t) st url
        (NetOutcome.httpError s d : NetOutcome Payload)).events = []
    ∧ (fetchWithAuth (some t) st url
        (NetOutcome.httpError s d : NetOutcome Payload)).result
      = Except.error (FetchErr.http s d)
    ∧ dashSessionExpiredCheck (errMessage (FetchErr.http 401 none)) = true :=
  ⟨rfl, rfl, rfl⟩

/-- Claim C10 (confirmed): once any request has resolved a credential into the
service's token field, every later request attaches that same token and leaves
it in place, whatever its URL or the storage contents, until `setToken`
replaces it. -/
theorem c10_token_sticky (tok : Option String) (st st2 st3 : Storage)
    (url url2 url3 : String) (net : NetOutcome Payload) (net2 net3 : NetOutcome Nat)
    (t t2 : String)
    (h : (fetchWithAuth tok st url net).newToken = some t) :
    (fetchWithAuth (fetchWithAuth tok st url net).newToken st2 url2 net2).authToken
      = some t
    ∧ (fetchWithAuth (fetchWithAuth tok st url net).newToken st2 url2 net2).newToken
      = some t
    ∧ (fetchWithAuth (setToken (some t) t2) st3 url3 net3).authToken = some t2 := by
  rw [h]
  refine ⟨?_, ?_, ?_⟩ <;>
    cases net2 <;> cases net3 <;> simp [fetchWithAuth, resolveToken, setToken]

/-- Witness for C10: the token resolved by a first user-route request is
attached unchanged to a later admin-route request against different storage. -/
theorem c10_witness :
    (fetchWithAuth
        (fetchWithAuth none { adminToken := none, sessionToken := some "S" }
          "/dashboard/data" (NetOutcome.ok samplePayload)).newToken
        { adminToken := some "A", sessionToken := some "S2" }
        "/admin/server-events?include_inactive=false"
        (NetOutcome.ok 0 : NetOutcome Nat)).authToken = some "S" :=
  (c10_token_sticky none { adminToken := none, sessionToken := some "S" }
      { adminToken := some "A", sessionToken := some "S2" }
      { adminToken := none, sessionToken := none }
      "/dashboard/data" "/admin/server-events?include_inactive=false" "/x"
      (NetOutcome.ok samplePayload) (NetOutcome.ok 0) (NetOutcome.ok 0)
      "S" "T" rfl).1

/-- Claim C2 (confirmed): a forced refresh (`useCache = false`) is independent
of the cache-service state — no cached snapshot is ever returned, even a fresh
one — and a primary-endpoint failure propagates to the caller unmodified, with
no fallback. -/
theorem c2_forced_bypass (cv cv2 : Bool) (cached cached2 : Option Payload)
    (sb sb2 : Bool) (tok : Option String) (st : Storage) (env : NetEnv)
    (t : String) (s : Nat) (d : Option String) :
    getDashboardData false cv cached sb tok st env
      = getDashboardData false cv2 cached2 sb2 tok st env
    ∧ (getDashboardData false cv cached sb (some t) st
        { env with primary := NetOutcome.httpError s d }).result
      = Except.error (FetchErr.http s d)
    ∧ (getDashboardData false cv cached sb (some t) st
        { env with primary := NetOutcome.netFail }).result
      = Except.error FetchErr.network := by
  refine ⟨?_, ?_, ?_⟩
  · show freshFetch false cached tok st env = freshFetch false cached2 tok st env
    unfold freshFetch
    cases (fetchWithAuth tok st "/dashboard/data" env.primary).result <;> simp
  · simp [getDashboardData, freshFetch, fetchWithAuth, resolveToken, errOutcome]
  · simp [getDashboardData, freshFetch, fetchWithAuth, resolveToken, errOutcome]

/-- Whatever the endpoint returns, `_fetchServerEvents` resolves to a value
without a `success` key. -/
theorem fetchServerEvents_success_none (token : Option String) (st : Storage)
    (net : NetOutcome EventsResp) (fresh : EventsData)
    (h : (fetchServerEvents token st net).result = Except.ok fresh) :
    fresh.success = none := by
  simp only [fetchServerEvents, Except.ok.injEq] at h
  subst h
  cases hr : (fetchWithAuth token st "/admin/server-events?include_inactive=false"
      net).result with
  | ok resp => cases hs : resp.success <;> simp [hs]
  | error e => rfl

/-- `finishFresh` always returns the given payload, writes the cache exactly
when the payload reports success, dispatches `dashboard:refreshed` exactly in
that case, and passes the acknowledgement mark through. -/
theorem finishFresh_facts (c : Payload) (evs : List Event) (n : Nat) (a : Bool) :
    (finishFresh c evs n a).result = Except.ok c
    ∧ (finishFresh c evs n a).cacheSaved = (if c.success then some c else none)
    ∧ (finishFresh c evs n a).ackPosted = a
    ∧ (finishFresh c evs n a).events
      = (if c.success then evs ++ [Event.dashboardRefreshed] else evs) := by
  by_cases h : c.success = true <;> simp [finishFresh, h]

/-- The server-events block never changes the payload and never posts the
acknowledgement: the guard `freshEventsData.success` tests a key
`_fetchServerEvents` strips from every return value. -/
theorem eventsBlock_inert (c : Payload) (tok : Option String) (st : Storage)
    (sev : NetOutcome EventsResp) (clr : NetOutcome Unit) :
    (eventsBlock c tok st sev clr).1 = c
    ∧ (eventsBlock c tok st sev clr).2.2.2 = false := by
  unfold eventsBlock
  split
  · cases h : (fetchServerEvents tok st sev).result with
    | ok fresh =>
        have hs := fetchServerEvents_success_none tok st sev fresh h
        simp [hs]
    | error e => simp
  · simp

/-- On a primary success with an injected token, the fresh-fetch path returns
exactly the merged payload, writes the cache exactly when it reports success,
never posts the acknowledgement, and dispatches `dashboard:refreshed` exactly
on success. -/
theorem freshFetch_primary_ok (u : Bool) (cached : Option Payload) (t : String)
    (st : Storage) (p : Payload) (sec : NetOutcome Nat) (sev : NetOutcome EventsResp)
    (clr : NetOutcome Unit) :
    ((freshFetch u cached (some t) st ⟨NetOutcome.ok p, sec, sev, clr⟩).result
      = Except.ok (mergeDue p
          ((fetchWithAuth (some t) st "/portfolio/due-dates-data" sec).result.toOption)))
    ∧ ((freshFetch u cached (some t) st ⟨NetOutcome.ok p, sec, sev, clr⟩).cacheSaved
      = (if (mergeDue p
            ((fetchWithAuth (some t) st "/portfolio/due-dates-data" sec).result.toOption)).success
         then some (mergeDue p
            ((fetchWithAuth (some t) st "/portfolio/due-dates-data" sec).result.toOption))
         else none))
    ∧ ((freshFetch u cached (some t) st ⟨NetOutcome.ok p, sec, sev, clr⟩).ackPosted = false)
    ∧ ((mergeDue p
          ((fetchWithAuth (some t) st "/portfolio/due-dates-data" sec).result.toOption)).success
        = true →
      Event.dashboardRefreshed ∈
        (freshFetch u cached (some t) st ⟨NetOutcome.ok p, sec, sev, clr⟩).events) := by
  have hsec : (fetchWithAuth (some t) st "/portfolio/due-dates-data" sec).newToken = some t := by
    cases sec <;> rfl
  have hstep : freshFetch u cached (some t) st ⟨NetOutcome.ok p, sec, sev, clr⟩
      = finishFresh
          (eventsBlock (mergeDue p
            ((fetchWithAuth (some t) st "/portfolio/due-dates-data" sec).result.toOption))
            (fetchWithAuth (some t) st "/portfolio/due-dates-data" sec).newToken st sev clr).1
          (((fetchWithAuth (some t) st "/dashboard/data"
              (NetOutcome.ok p : NetOutcome Payload)).events
            ++ (fetchWithAuth (some t) st "/portfolio/due-dates-data" sec).events)
            ++ (eventsBlock (mergeDue p
              ((fetchWithAuth (some t) st "/portfolio/due-dates-data" sec).result.toOption))
              (fetchWithAuth (some t) st "/portfolio/due-dates-data" sec).newToken st sev clr).2.1)
          (eventsBlock (mergeDue p
            ((fetchWithAuth (some t) st "/portfolio/due-dates-data" sec).result.toOption))
            (fetchWithAuth (some t) st "/portfolio/due-dates-data" sec).newToken st sev clr).2.2.1
          (eventsBlock (mergeDue p
            ((fetchWithAuth (some t) st "/portfolio/due-dates-data" sec).result.toOption))
            (fetchWithAuth (some t) st "/portfolio/due-dates-data" sec).newToken st sev clr).2.2.2
      := rfl
  obtain ⟨hb1, hb2⟩ := eventsBlock_inert (mergeDue p
      ((fetchWithAuth (some t) st "/portfolio/due-dates-data" sec).result.toOption))
    (fetchWithAuth (some t) st "/portfolio/due-dates-data" sec).newToken st sev clr
  rw [hstep, hb1, hb2]
  obtain ⟨hf1, hf2, hf3, hf4⟩ := finishFresh_facts (mergeDue p
      ((fetchWithAuth (some t) st "/portfolio/due-dates-data" sec).result.toOption)) _ _ false
  refine ⟨hf1, hf2, hf3, ?_⟩
  intro hs
  rw [hf4]
  simp [hs]

/-- Claim C1 (corrected), counterexample: `useCache = true`, an expired cache
entry exists, the primary endpoint fails with HTTP 500 — the call returns the
tagged cached snapshot, but no event at all is dispatched, in particular not
the degraded-network one. -/
theorem c1_counterexample :
    (getDashboardData true false (some samplePayload) false (some "t")
        { adminToken := none, sessionToken := none }
        ⟨NetOutcome.httpError 500 none, NetOutcome.httpError 500 none,
          NetOutcome.httpError 500 none, NetOutcome.httpError 500 none⟩).result
      = Except.ok { samplePayload with
          fromCacheDueToError := true
          errMsg := some "HTTP error! status: 500" }
    ∧ (getDashboardData true false (some samplePayload) false (some "t")
        { adminToken := none, sessionToken := none }
        ⟨NetOutcome.httpError 500 none, NetOutcome.httpError 500 none,
          NetOutcome.httpError 500 none, NetOutcome.httpError 500 none⟩).events
      = [] :=
  ⟨rfl, rfl⟩

/-- Claim C1 (corrected), amended: during a cache-backed refresh whose primary
call fails, a stored snapshot (of any age) is returned tagged
`_fromCacheDueToError = true` with the error message, without throwing, and
with no cached snapshot the error propagates; the `network:error` event,
however, is dispatched by `fetchWithAuth` exactly when a transport-level
failure occurred on one of the fanned-out calls, independent of the cache —
an HTTP-status failure dispatches nothing. -/
theorem c1_amended_degraded_fallback (cached : Option Payload) (sb : Bool)
    (t : String) (st : Storage) (prim : NetOutcome Payload) (sec : NetOutcome Nat)
    (sev : NetOutcome EventsResp) (clr : NetOutcome Unit)
    (hfail : prim.failed = true) :
    (∀ c, cached = some c →
      (getDashboardData true false cached sb (some t) st ⟨prim, sec, sev, clr⟩).result
        = Except.ok { c with
            fromCacheDueToError := true
            errMsg := some (errMessage (errOf prim)) })
    ∧ (cached = none →
      (getDashboardData true false cached sb (some t) st ⟨prim, sec, sev, clr⟩).result
        = Except.error (errOf prim))
    ∧ (Event.networkError ∈
        (getDashboardData true false cached sb (some t) st ⟨prim, sec, sev, clr⟩).events
      ↔ (prim = NetOutcome.netFail ∨ sec = NetOutcome.netFail)) := by
  cases prim with
  | ok p => simp [NetOutcome.failed] at hfail
  | httpError s d =>
      cases sec <;> cases cached <;>
        simp [getDashboardData, freshFetch, fetchWithAuth, resolveToken,
          errOutcome, errOf, errMessage]
  | netFail =>
      cases sec <;> cases cached <;>
        simp [getDashboardData, freshFetch, fetchWithAuth, resolveToken,
          errOutcome, errOf, errMessage]

/-- Witness for the amended C1 at a concrete input: cache holds a snapshot,
the primary transport fails, the tagged snapshot is returned. -/
theorem c1_amended_witness :
    (getDashboardData true false (some samplePayload) false (some "t")
        { adminToken := none, sessionToken := none }
        ⟨NetOutcome.netFail, NetOutcome.ok 0, NetOutcome.httpError 500 none,
          NetOutcome.ok ()⟩).result
      = Except.ok { samplePayload with
          fromCacheDueToError := true
          errMsg := some (errMessage (errOf (NetOutcome.netFail : NetOutcome Payload))) } :=
  (c1_amended_degraded_fallback (some samplePayload) false "t"
      { adminToken := none, sessionToken := none } NetOutcome.netFail
      (NetOutcome.ok 0) (NetOutcome.httpError 500 none) (NetOutcome.ok ()) rfl).1
    samplePayload rfl

/-- Claim C4 (corrected), counterexample: primary succeeds, secondary fails —
the refresh completes with the primary payload and the secondary section
absent, but the returned snapshot carries no `partial = true` mark: the code
never writes such a key. -/
theorem c4_counterexample :
    (getDashboardData false false none false (some "t")
        { adminToken := none, sessionToken := none }
        ⟨NetOutcome.ok samplePayload, NetOutcome.httpError 500 none,
          NetOutcome.httpError 500 none, NetOutcome.httpError 500 none⟩).result
      = Except.ok samplePayload
    ∧ samplePayload.partFlag = none :=
  ⟨rfl, rfl⟩

/-- Claim C4 (corrected), amended: when the primary endpoint succeeds and the
secondary fails, the refresh completes without throwing and returns exactly
the primary payload — the secondary section is simply absent, and no
`partial` mark (or any other mark) is added; the payload is written to cache
precisely when it reports success. -/
theorem c4_amended_secondary_tolerance (u sb : Bool) (cached : Option Payload)
    (t : String) (st : Storage) (sec : NetOutcome Nat) (sev : NetOutcome EventsResp)
    (clr : NetOutcome Unit) (p : Payload) (hsec : sec.failed = true) :
    (getDashboardData u false cached sb (some t) st
        ⟨NetOutcome.ok p, sec, sev, clr⟩).result = Except.ok p
    ∧ (getDashboardData u false cached sb (some t) st
        ⟨NetOutcome.ok p, sec, sev, clr⟩).cacheSaved
      = (if p.success then some p else none) := by
  have hget : getDashboardData u false cached sb (some t) st ⟨NetOutcome.ok p, sec, sev, clr⟩
      = freshFetch u cached (some t) st ⟨NetOutcome.ok p, sec, sev, clr⟩ := by
    simp [getDashboardData]
  have hnone : (fetchWithAuth (some t) st "/portfolio/due-dates-data" sec).result.toOption
      = (none : Option Nat) := by
    cases sec with
    | ok b => simp [NetOutcome.failed] at hsec
    | httpError s2 d2 => rfl
    | netFail => rfl
  obtain ⟨h1, h2, _, _⟩ := freshFetch_primary_ok u cached t st p sec sev clr
  rw [hnone] at h1 h2
  have hmp : mergeDue p (none : Option Nat) = p := by simp [mergeDue]
  rw [hmp] at h1 h2
  exact ⟨by rw [hget]; exact h1, by rw [hget]; exact h2⟩

/-- Witness for the amended C4 at the spec scenario of section 8: empty cache,
primary returns a successful payload, secondary fails — the payload comes back
unchanged and is cached. -/
theorem c4_amended_witness :
    (getDashboardData true false none false (some "t")
        { adminToken := none, sessionToken := none }
        ⟨NetOutcome.ok samplePayload, NetOutcome.netFail,
          NetOutcome.ok { success := true, events := [], count := 0 },
          NetOutcome.ok ()⟩).result = Except.ok samplePayload :=
  (c4_amended_secondary_tolerance true false none "t"
      { adminToken := none, sessionToken := none } NetOutcome.netFail
      (NetOutcome.ok { success := true, events := [], count := 0 })
      (NetOutcome.ok ()) samplePayload rfl).1

/-- One `fetchWithAuth` call dispatches either nothing or the single
`network:error` event. -/
theorem fetchWithAuth_events_cases (token : Option String) (st : Storage)
    (url : String) (net : NetOutcome α) :
    (fetchWithAuth token st url net).events = []
    ∨ (fetchWithAuth token st url net).events = [Event.networkError] := by
  unfold fetchWithAuth
  cases resolveToken token st url <;> cases net <;> simp

/-- The fan-out of a refresh never dispatches `dashboard:refreshed`. -/
theorem dashRefreshed_not_fan (tok : Option String) (st : Storage) (env : NetEnv) :
    Event.dashboardRefreshed ∉ fanEvents tok st env := by
  unfold fanEvents
  rcases fetchWithAuth_events_cases tok st "/dashboard/data" env.primary with h1 | h1 <;>
    rcases fetchWithAuth_events_cases
        (fetchWithAuth tok st "/dashboard/data" env.primary).newToken
        st "/portfolio/due-dates-data" env.secondary with h2 | h2 <;>
      simp [h1, h2]

/-- Claim C5 (corrected), counterexample: two same-tick callers hitting a
stale-usable cache entry are both served from cache, and each spawns its own
`_backgroundRefresh` — two network refreshes are issued, not exactly one. -/
theorem c5_counterexample :
    bgRefreshesSpawned 2 true (some samplePayload) true (some "t")
        { adminToken := none, sessionToken := none }
        ⟨NetOutcome.ok samplePayload, NetOutcome.ok 0,
          NetOutcome.ok { success := true, events := [], count := 0 },
          NetOutcome.ok ()⟩ = 2
    ∧ (getDashboardData true true (some samplePayload) true (some "t")
        { adminToken := none, sessionToken := none }
        ⟨NetOutcome.ok samplePayload, NetOutcome.ok 0,
          NetOutcome.ok { success := true, events := [], count := 0 },
          NetOutcome.ok ()⟩).result = Except.ok samplePayload :=
  ⟨rfl, rfl⟩

/-- Claim C5 (corrected), amended: `_backgroundRefresh` has no re-entrancy
guard — every one of `n` same-tick callers that hits a valid cache entry while
the cache service requests a background refresh spawns its own refresh, `n` in
total; only `ServerEventsCarousel.fetchEvents` guards re-entry
(`fetchInProgress`), and a call arriving while a fetch is in flight returns at
once, issuing no fetch and not attaching to the in-flight result. -/
theorem c5_amended_no_refresh_guard (n : Nat) (c : Payload) (tok : Option String)
    (st : Storage) (env : NetEnv) (force cachedNonEmpty hasTok : Bool) :
    bgRefreshesSpawned n true (some c) true tok st env = n
    ∧ fetchEventsIssues true force cachedNonEmpty hasTok = 0 := by
  constructor
  · induction n with
    | zero => rfl
    | succ m ih =>
        simp only [bgRefreshesSpawned, ih, spawnsBgRefresh, getDashboardData]
        simp [getDashboardData]
        omega
  · rfl

/-- Claim C6 (corrected), counterexample: a synchronous refresh returning a
payload identical to the previously cached one (so `hasDataChanged` is false)
still rewrites the cache and still dispatches `dashboard:refreshed`. -/
theorem c6_counterexample :
    hasDataChanged samplePayload samplePayload = false
    ∧ (getDashboardData false false (some samplePayload) false (some "t")
        { adminToken := none, sessionToken := none }
        ⟨NetOutcome.ok samplePayload, NetOutcome.httpError 500 none,
          NetOutcome.httpError 500 none, NetOutcome.httpError 500 none⟩).cacheSaved
      = some samplePayload
    ∧ Event.dashboardRefreshed ∈
      (getDashboardData false false (some samplePayload) false (some "t")
        { adminToken := none, sessionToken := none }
        ⟨NetOutcome.ok samplePayload, NetOutcome.httpError 500 none,
          NetOutcome.httpError 500 none, NetOutcome.httpError 500 none⟩).events := by
  refine ⟨by decide, rfl, by decide⟩

/-- Claim C6 (corrected), amended: change suppression only applies to
background refreshes — `_backgroundRefresh` skips the cache write and the
`dashboard:refreshed` dispatch when `hasDataChanged` reports no change — while
the synchronous refresh path of `getDashboardData` always writes the cache and
always dispatches `dashboard:refreshed` on a successful payload, changed or
not. -/
theorem c6_amended_change_suppression (old c : Payload) (tok : Option String)
    (st : Storage) (env : NetEnv) (u sb : Bool) (cached : Option Payload)
    (t : String) (p : Payload) (sec : NetOutcome Nat) (sev : NetOutcome EventsResp)
    (clr : NetOutcome Unit)
    (hc : bgCombined tok st env = Except.ok c)
    (hunch : hasDataChanged c old = false)
    (hps : (mergeDue p
      ((fetchWithAuth (some t) st "/portfolio/due-dates-data" sec).result.toOption)).success
      = true) :
    (backgroundRefresh (some old) tok st env).cacheSaved = none
    ∧ Event.dashboardRefreshed ∉ (backgroundRefresh (some old) tok st env).events
    ∧ Event.dashboardRefreshed ∈
      (getDashboardData u false cached sb (some t) st
        ⟨NetOutcome.ok p, sec, sev, clr⟩).events
    ∧ (getDashboardData u false cached sb (some t) st
        ⟨NetOutcome.ok p, sec, sev, clr⟩).cacheSaved
      = some (mergeDue p
          ((fetchWithAuth (some t) st "/portfolio/due-dates-data" sec).result.toOption)) := by
  have hget : getDashboardData u false cached sb (some t) st ⟨NetOutcome.ok p, sec, sev, clr⟩
      = freshFetch u cached (some t) st ⟨NetOutcome.ok p, sec, sev, clr⟩ := by
    simp [getDashboardData]
  have hbg : (backgroundRefresh (some old) tok st env).cacheSaved = none
      ∧ (backgroundRefresh (some old) tok st env).events = fanEvents tok st env := by
    unfold backgroundRefresh
    rw [hc]
    by_cases hcs : c.success = true <;> simp [hcs, hunch]
  refine ⟨hbg.1, ?_, ?_, ?_⟩
  · rw [hbg.2]
    exact dashRefreshed_not_fan tok st env
  · rw [hget]
    exact (freshFetch_primary_ok u cached t st p sec sev clr).2.2.2 hps
  · rw [hget]
    have h2 := (freshFetch_primary_ok u cached t st p sec sev clr).2.1
    rw [hps] at h2
    simpa using h2

/-- Witness for the amended C6: a background refresh that returns the very
payload already cached writes nothing. -/
theorem c6_amended_witness :
    (backgroundRefresh (some samplePayload) (some "t")
        { adminToken := none, sessionToken := none }
        ⟨NetOutcome.ok samplePayload, NetOutcome.httpError 500 none,
          NetOutcome.httpError 500 none, NetOutcome.httpError 500 none⟩).cacheSaved
      = none :=
  (c6_amended_change_suppression samplePayload samplePayload (some "t")
      { adminToken := none, sessionToken := none }
      ⟨NetOutcome.ok samplePayload, NetOutcome.httpError 500 none,
        NetOutcome.httpError 500 none, NetOutcome.httpError 500 none⟩
      false false none "t" samplePayload (NetOutcome.httpError 500 none)
      (NetOutcome.httpError 500 none) (NetOutcome.httpError 500 none)
      rfl (by decide) rfl).1

/-- A `cacheSet` write leaves the store at the larger of the stored and the
written `fetchedAt`. -/
theorem storedFetchedAt_set (s : Option CacheEntry) (e : CacheEntry) :
    storedFetchedAt (cacheSet s e) = max (storedFetchedAt s) e.fetchedAt := by
  cases s with
  | none => simp [cacheSet, storedFetchedAt]
  | some old =>
      by_cases h : e.fetchedAt < old.fetchedAt <;>
        simp [cacheSet, storedFetchedAt, h] <;> omega

/-- Claim C7 (confirmed, against the spec-modelled `cacheSet`): a write
carrying an older `fetchedAt` than the stored entry never overwrites it, the
final `fetchedAt` after two racing writes is the newest of all involved
regardless of completion order, and in the spec scenario (B newer than A,
B completes first, A completes last) B's entry survives. -/
theorem c7_cache_monotonicity (s : Option CacheEntry) (a b : CacheEntry) :
    (∀ old, s = some old → a.fetchedAt < old.fetchedAt → cacheSet s a = some old)
    ∧ storedFetchedAt (cacheSet (cacheSet s a) b)
      = max (storedFetchedAt s) (max a.fetchedAt b.fetchedAt)
    ∧ storedFetchedAt (cacheSet (cacheSet s a) b)
      = storedFetchedAt (cacheSet (cacheSet s b) a)
    ∧ (a.fetchedAt < b.fetchedAt → cacheSet (cacheSet none b) a = some b) := by
  refine ⟨?_, ?_, ?_, ?_⟩
  · intro old hs hlt
    subst hs
    simp [cacheSet, hlt]
  · rw [storedFetchedAt_set, storedFetchedAt_set]
    omega
  · rw [storedFetchedAt_set, storedFetchedAt_set, storedFetchedAt_set,
      storedFetchedAt_set]
    omega
  · intro h
    simp [cacheSet, h]

/-- Witness for C7: the later-completing write with the older timestamp loses. -/
theorem c7_witness :
    cacheSet (cacheSet none { snapshot := samplePayload, fetchedAt := 2 })
        { snapshot := samplePayload, fetchedAt := 1 }
      = some { snapshot := samplePayload, fetchedAt := 2 } :=
  (c7_cache_monotonicity none { snapshot := samplePayload, fetchedAt := 1 }
      { snapshot := samplePayload, fetchedAt := 2 }).2.2.2 (by decide)

/-- A payload whose server-events update flag is set. -/
def flagPayload : Payload :=
  { samplePayload with server_events_update_flag := some "true" }

/-- The fresh-fetch path never posts the clear-flag acknowledgement. -/
theorem freshFetch_ack_false (u : Bool) (cached : Option Payload)
    (tok : Option String) (st : Storage) (env : NetEnv) :
    (freshFetch u cached tok st env).ackPosted = false := by
  cases hp : (fetchWithAuth tok st "/dashboard/data" env.primary).result with
  | error e =>
      cases u <;> cases cached <;> simp [freshFetch, hp, errOutcome]
  | ok p =>
      have hb := (eventsBlock_inert
        (mergeDue p
          ((fetchWithAuth (fetchWithAuth tok st "/dashboard/data" env.primary).newToken
            st "/portfolio/due-dates-data" env.secondary).result.toOption))
        (fetchWithAuth (fetchWithAuth tok st "/dashboard/data" env.primary).newToken
          st "/portfolio/due-dates-data" env.secondary).newToken
        st env.serverEvents env.clearFlag).2
      simp only [freshFetch, hp]
      by_cases hs : (eventsBlock
          (mergeDue p
            ((fetchWithAuth (fetchWithAuth tok st "/dashboard/data" env.primary).newToken
              st "/portfolio/due-dates-data" env.secondary).result.toOption))
          (fetchWithAuth (fetchWithAuth tok st "/dashboard/data" env.primary).newToken
            st "/portfolio/due-dates-data" env.secondary).newToken
          st env.serverEvents env.clearFlag).1.success = true <;>
        simp [finishFresh, hs, hb]

/-- Claim C8 (code_bug): the flag does trigger exactly one extra
server-events fetch, but the acknowledgement POST is never issued — on any
input whatsoever — because the guard reads `freshEventsData.success`, a key
`_fetchServerEvents` strips from every value it returns; at the failing input
below the sub-fetch succeeds with one event, yet the returned payload keeps
its server-events section unchanged and no acknowledgement is sent. -/
theorem c8_ack_never_posted :
    (∀ (u cv : Bool) (cached : Option Payload) (sb : Bool) (tok : Option String)
        (st : Storage) (env : NetEnv),
      (getDashboardData u cv cached sb tok st env).ackPosted = false)
    ∧ (getDashboardData false false none false (some "t")
        { adminToken := none, sessionToken := none }
        ⟨NetOutcome.ok flagPayload, NetOutcome.httpError 500 none,
          NetOutcome.ok { success := true, events := [7], count := 1 },
          NetOutcome.ok ()⟩).eventsFetchCount = 1
    ∧ (getDashboardData false false none false (some "t")
        { adminToken := none, sessionToken := none }
        ⟨NetOutcome.ok flagPayload, NetOutcome.httpError 500 none,
          NetOutcome.ok { success := true, events := [7], count := 1 },
          NetOutcome.ok ()⟩).result = Except.ok flagPayload
    ∧ flagPayload.server_events = none := by
  refine ⟨?_, rfl, rfl, rfl⟩
  intro u cv cached sb tok st env
  by_cases h : (u && cv) = true <;> cases cached <;>
    simp [getDashboardData, h, freshFetch_ack_false]

end Incap

